import Mathlib

/-!
# Verification of the DataChat Pro core (src/app.py)

Shallow embedding of the fallible core of the application: the SQL
extraction pipeline (`extract_sql_query`), the query executor
(`execute_sql_query`), the schema inspector (`get_database_info`), and the
session bookkeeping performed by `process_user_query` (message log with its
duplicate-submission guard, query history with its eviction policy, and the
analytics counters with their two success-rate computations).

Python strings are modelled as `List Char`; the external collaborators
(SQLAlchemy engine, pandas, the LangChain agent) are modelled as oracle
inputs carrying either a result or the exception message that the
corresponding Python `except` block would receive.
-/

/-! ## Character-level utilities

`pySpace` is the ASCII part of Python's `\s` character class (and of
`str.strip()`): space, tab, newline, carriage return, vertical tab and form
feed.  The regex patterns of `extract_sql_query` are compiled with
`re.IGNORECASE`, modelled by comparing `Char.toLower` images.
-/

def pySpace (c : Char) : Bool :=
  c = ' ' || c = '\t' || c = '\n' || c = '\r' || c = '\x0b' || c = '\x0c'

/-- Python `str.lstrip()` on the `\s` class. -/
def pyStripLeft (l : List Char) : List Char :=
  l.dropWhile pySpace

/-- Python `str.rstrip()` on the `\s` class. -/
def pyStripRight (l : List Char) : List Char :=
  (l.reverse.dropWhile pySpace).reverse

/-- Python `str.strip()` on the `\s` class. -/
def pyStrip (l : List Char) : List Char :=
  pyStripRight (pyStripLeft l)

/-- Case-insensitive prefix test: does `l` start with pattern `p`, comparing
characters through `Char.toLower`?  This is how a literal run of pattern
characters matches under `re.IGNORECASE`. -/
def startsWithCI : List Char → List Char → Bool
  | [], _ => true
  | _ :: _, [] => false
  | p :: ps, c :: cs => (p.toLower == c.toLower) && startsWithCI ps cs

/-- The literal `sql` code-fence opener of pattern 1 of `extract_sql_query`. -/
def fenceTag : List Char := "```sql".data

/-- A generic code fence. -/
def tripleTick : List Char := "```".data

/-- Split a text at the first occurrence of a generic code fence: returns
the characters strictly before the first occurrence of the three-backtick
marker together with the characters after it, or `none` when the marker
does not occur.  This realises how the lazy group `(.*?)` of patterns 1 and
2 stops at the first viable closing fence. -/
def splitAtTriple : List Char → Option (List Char × List Char)
  | [] => none
  | c :: cs =>
    if startsWithCI tripleTick (c :: cs) then some ([], (c :: cs).drop 3)
    else
      match splitAtTriple cs with
      | some (pre, post) => some (c :: pre, post)
      | none => none

/-- Pattern 1 of `extract_sql_query` (src/app.py:225):
`re.findall(r'```sql\s*(.*?)\s*```', text, re.IGNORECASE | re.DOTALL)`,
first match.  The scan tries each start position from the left; at a
position starting with a (case-insensitive) ` ```sql ` marker the lazy
group ends at the first subsequent ` ``` ` marker, and the two `\s*`
borders strip exactly the surrounding whitespace of the interior, so the
captured group is the stripped interior. -/
def fenceSqlMatch : List Char → Option (List Char)
  | [] => none
  | c :: cs =>
    if startsWithCI fenceTag (c :: cs) then
      match splitAtTriple ((c :: cs).drop 6) with
      | some (pre, _) => some (pyStrip pre)
      | none => fenceSqlMatch cs
    else fenceSqlMatch cs

/-- Pattern 2 of `extract_sql_query` (src/app.py:226):
`re.findall(r'```\s*(SELECT.*?)\s*```', text, re.IGNORECASE | re.DOTALL)`,
first match: a generic code fence whose content starts (after greedy
whitespace, which cannot backtrack onto `S`) with `SELECT`; the group runs
from that `SELECT` to the first subsequent fence, with the whitespace
before the closing fence left to the trailing `\s*`. -/
def fenceSelectMatch : List Char → Option (List Char)
  | [] => none
  | c :: cs =>
    if startsWithCI tripleTick (c :: cs) then
      let rest := ((c :: cs).drop 3).dropWhile pySpace
      if startsWithCI ("SELECT".data) rest then
        match splitAtTriple rest with
        | some (pre, _) => some (pyStripRight pre)
        | none => fenceSelectMatch cs
      else fenceSelectMatch cs
    else fenceSelectMatch cs

/-- The lazy tail `.*?(?:;|\n|$)` of patterns 3-6: consume characters up to
and including the first semicolon or newline, or the whole text when
neither occurs (the `$` alternative). -/
def takeToTerm : List Char → List Char
  | [] => []
  | c :: cs => if c = ';' || c = '\n' then [c] else c :: takeToTerm cs

/-- Patterns 3-6 of `extract_sql_query` (src/app.py:227-230):
`re.findall(r'(KW\s+.*?(?:;|\n|$))', text, re.IGNORECASE | re.DOTALL)`,
first match, for `KW` one of `SELECT`, `INSERT`, `UPDATE`, `DELETE`.  At
the first position where the keyword (case-insensitively) occurs followed
by at least one whitespace character, the group is the matched keyword
text, the greedy whitespace run, and the lazy tail up to the first
semicolon, newline, or end of text. -/
def bareMatch (kw : List Char) : List Char → Option (List Char)
  | [] => none
  | c :: cs =>
    if startsWithCI kw (c :: cs) then
      let ws := ((c :: cs).drop kw.length).takeWhile pySpace
      if ws.isEmpty then bareMatch kw cs
      else
        some ((c :: cs).take kw.length ++ ws ++
          takeToTerm (((c :: cs).drop kw.length).dropWhile pySpace))
    else bareMatch kw cs

/-- The post-processing applied to the first regex group found
(src/app.py:236-239): `sql_query = matches[0].strip()` followed by the
removal of a single trailing semicolon. -/
def finishMatch (m : List Char) : List Char :=
  let s := pyStrip m
  if s.getLast? = some ';' then s.dropLast else s

/-- The `for pattern in sql_patterns` loop of `extract_sql_query`
(src/app.py:233-235): the first group of the first pattern whose
`re.findall` list is non-empty, before post-processing. -/
def extractChars (cs : List Char) : Option (List Char) :=
  match fenceSqlMatch cs with
  | some x => some x
  | none =>
    match fenceSelectMatch cs with
    | some x => some x
    | none =>
      match bareMatch ("SELECT".data) cs with
      | some x => some x
      | none =>
        match bareMatch ("INSERT".data) cs with
        | some x => some x
        | none =>
          match bareMatch ("UPDATE".data) cs with
          | some x => some x
          | none => bareMatch ("DELETE".data) cs

/-- src/app.py:223-241, `extract_sql_query(response_text)`: try the six
regex patterns in order and return the post-processed first group of the
first pattern whose `re.findall` list is non-empty; return `None` (here
`none`) when no pattern matches.  The function is total: a non-match is an
absence of a result, not an error. -/
def extract_sql_query (response_text : String) : Option String :=
  (extractChars response_text.data).map (fun x => String.mk (finishMatch x))

/-! ## Schema inspector (src/app.py:138-164)

`get_database_info(engine)` enumerates the tables of the connected engine
and, for each table, attempts a row count and a column listing.  The
database operations are modelled as oracles: `tables` is the outcome of
`inspector.get_table_names()`, `rowCount t` the outcome of
`SELECT COUNT(*) FROM [t]`, `getColumns t` the outcome of
`inspector.get_columns(t)`; an `Except.error` carries the message of the
exception the corresponding call raised.
-/

/-- One entry of `inspector.get_columns`: the `{'name': ..., 'type': ...}`
dictionary built at src/app.py:155. -/
structure ColumnInfo where
  name : String
  type : String
deriving DecidableEq, Repr

/-- One value of the `schema_info` dictionary (src/app.py:154-157). -/
structure TableInfo where
  columns : List ColumnInfo
  row_count : Nat
deriving DecidableEq, Repr

/-- Python dictionary assignment `d[k] = v` on an insertion-ordered
association list: overwrite in place if the key is present, else append. -/
def dictInsert (d : List (String × TableInfo)) (k : String) (v : TableInfo) :
    List (String × TableInfo) :=
  if d.any (fun p => p.1 == k) then
    d.map (fun p => if p.1 == k then (k, v) else p)
  else d ++ [(k, v)]

/-- The body of the per-table loop of `get_database_info`
(src/app.py:146-159), one fold step over `(schema_info, total_records)`.
The inner `try` covers both the row count and the column listing; its
`except` stores `{'columns': [], 'row_count': 0}` for that table only.
Note that `total_records += row_count` runs before
`inspector.get_columns(table)`, so a table whose column listing fails
still contributes its row count to `total_records`. -/
def gdiStep (rowCount : String → Except String Nat)
    (getColumns : String → Except String (List ColumnInfo))
    (acc : List (String × TableInfo) × Nat) (t : String) :
    List (String × TableInfo) × Nat :=
  match rowCount t with
  | Except.error _ => (dictInsert acc.1 t ⟨[], 0⟩, acc.2)
  | Except.ok rc =>
    match getColumns t with
    | Except.error _ => (dictInsert acc.1 t ⟨[], 0⟩, acc.2 + rc)
    | Except.ok cols => (dictInsert acc.1 t ⟨cols, rc⟩, acc.2 + rc)

/-- src/app.py:138-164, `get_database_info(engine)`.  The outer `try`
covers table enumeration: its failure returns `({}, 0, str(e))`; otherwise
the per-table loop runs and the call returns
`(schema_info, total_records, None)`. -/
def get_database_info (tables : Except String (List String))
    (rowCount : String → Except String Nat)
    (getColumns : String → Except String (List ColumnInfo)) :
    List (String × TableInfo) × Nat × Option String :=
  match tables with
  | Except.error e => ([], 0, some e)
  | Except.ok ts =>
    let r := ts.foldl (gdiStep rowCount getColumns) ([], 0)
    (r.1, r.2, none)

/-- The `schema_info` entry that `get_database_info` records for table `t`
under the given oracles: the real columns and row count when both
introspection calls succeed, and the `{'columns': [], 'row_count': 0}`
default when either fails. -/
def tableEntry (rowCount : String → Except String Nat)
    (getColumns : String → Except String (List ColumnInfo)) (t : String) :
    TableInfo :=
  match rowCount t with
  | Except.error _ => ⟨[], 0⟩
  | Except.ok rc =>
    match getColumns t with
    | Except.error _ => ⟨[], 0⟩
    | Except.ok cols => ⟨cols, rc⟩

/-- The contribution of table `t` to `total_records`: its row count when
`SELECT COUNT(*)` succeeds (even if the subsequent column listing fails),
and `0` otherwise. -/
def tableRowContribution (rowCount : String → Except String Nat)
    (t : String) : Nat :=
  match rowCount t with
  | Except.error _ => 0
  | Except.ok rc => rc

/-! ## Query executor (src/app.py:175-182)

`execute_sql_query(engine, query)` runs `pd.read_sql_query` under timing.
The outcome of the external call is an oracle: either a result table with
the measured elapsed time, or the message of the raised exception.
-/

/-- A pandas dataframe, reduced to what the core inspects: its rows
(`df.empty` is `rows.isEmpty`). -/
structure DataFrame where
  rows : List (List String)
deriving DecidableEq, Repr

/-- Outcome of the external `pd.read_sql_query` call together with the
wall-clock time the `time.time()` bracket would measure. -/
inductive ExecOutcome where
  | ok (df : DataFrame) (elapsed : ℚ)
  | fail (err : String)
deriving DecidableEq, Repr

/-- src/app.py:175-182, `execute_sql_query(engine, query)`: on success
return `(df, execution_time, None)`; on any exception return
`(None, 0, str(e))`. -/
def execute_sql_query (outcome : ExecOutcome) :
    Option DataFrame × ℚ × Option String :=
  match outcome with
  | ExecOutcome.ok df t => (some df, t, none)
  | ExecOutcome.fail e => (none, 0, some e)

/-! ## Session state (src/app.py:97-124) -/

inductive Role where
  | user
  | assistant
deriving DecidableEq, Repr

/-- A chat message dictionary (src/app.py:99-103, 292-296, 376-383,
404-409).  Keys absent from a given Python dictionary are modelled by the
default field values. -/
structure Message where
  role : Role
  content : String
  timestamp : Nat
  sql_query : Option String := none
  dataframe : Option DataFrame := none
  execution_time : Option ℚ := none
  error : Bool := false
deriving DecidableEq, Repr

/-- A query-history entry (src/app.py:387-393). -/
structure HistoryEntry where
  query : String
  response : String
  timestamp : Nat
  execution_time : ℚ
  sql_query : Option String
deriving DecidableEq, Repr

/-- The analytics counters (src/app.py:114-119). -/
structure Analytics where
  total_queries : Nat
  successful_queries : Nat
  total_response_time : ℚ
deriving DecidableEq, Repr

/-- The per-session mutable state touched by the core. -/
structure SessionState where
  messages : List Message
  query_history : List HistoryEntry
  analytics : Analytics
deriving DecidableEq, Repr

/-- The welcome message installed by `init_session_state`
(src/app.py:99-103). -/
def welcomeMessage : Message :=
  { role := Role.assistant,
    content := "Welcome to DataChat Pro! I can help you explore your database using natural language queries. Connect to your database and start asking questions!",
    timestamp := 0 }

/-- src/app.py:97-124, the state after `init_session_state()`. -/
def initialState : SessionState :=
  { messages := [welcomeMessage],
    query_history := [],
    analytics := { total_queries := 0, successful_queries := 0, total_response_time := 0 } }

/-! ## The interaction handler (src/app.py:281-411) -/

/-- The condition under which the duplicate-submission guard
(src/app.py:291) suppresses the append: the message log is non-empty and
its last entry is a user message with exactly the submitted content
(the negation of `not messages or messages[-1]['content'] != user_input
or messages[-1]['role'] != 'user'`). -/
def lastIsSameUser (msgs : List Message) (user_input : String) : Bool :=
  match msgs.getLast? with
  | none => false
  | some m => m.role == Role.user && m.content == user_input

/-- The user message appended by src/app.py:292-296. -/
def newUserMessage (user_input : String) (t : Nat) : Message :=
  { role := Role.user, content := user_input, timestamp := t }

/-- src/app.py:290-296: append the user message unless the log already
ends with the identical user message. -/
def appendUserMessage (msgs : List Message) (user_input : String) (t : Nat) :
    List Message :=
  if lastIsSameUser msgs user_input then msgs
  else msgs ++ [newUserMessage user_input t]

/-- src/app.py:387-396: append the history entry, then truncate to the
most recent 50 entries when the length exceeds 100
(`query_history[-50:]`). -/
def historyAppendEvict (history : List HistoryEntry) (entry : HistoryEntry) :
    List HistoryEntry :=
  let h := history ++ [entry]
  if h.length > 100 then h.drop (h.length - 50) else h

/-- The assistant error message appended by src/app.py:400-409. -/
def errorMessage (e : String) (t : Nat) : Message :=
  { role := Role.assistant, content := "Error processing query: " ++ e,
    timestamp := t, error := true }

/-- Outcome of the external agent interaction in
`process_user_query`: `noAgent` models `setup_ai_agent` returning
`(None, error)` (src/app.py:307-311), `raised` models an exception
escaping `agent.run` and caught at src/app.py:400, `ok` models a
successful `agent.run` returning the free-text response. -/
inductive AgentOutcome where
  | noAgent (err : String)
  | raised (err : String)
  | ok (response : String)
deriving DecidableEq, Repr

/-- Whether the agent interaction returned a response. -/
def AgentOutcome.isOk : AgentOutcome → Bool
  | AgentOutcome.ok _ => true
  | _ => false

/-- src/app.py:281-411, `process_user_query(user_input, api_key)`, as a
transition on the session state.  `dbConnected` models
`st.session_state.db_engine and st.session_state.db_instance` being set;
`agent` and `ex` are the oracles for the two external calls;
`tUser`/`tResp` are the `datetime.now()` timestamps and `execution_time`
the measured `time.time()` difference around the agent call.

The Python control flow: a missing (falsy) API key or a missing
connection returns before touching any state; the user message is then
appended under the duplicate guard; an agent-construction error returns
with no further state change; an exception from `agent.run` appends an
error message and returns; on success the analytics counters are
incremented (src/app.py:329-331), the SQL is extracted and, when present,
re-executed (the result is displayed only when there is no error and the
dataframe is non-empty), the assistant message is appended, and the
history entry is appended under the eviction policy. -/
def process_user_query (st : SessionState) (user_input : String)
    (api_key : String) (dbConnected : Bool) (agent : AgentOutcome)
    (ex : ExecOutcome) (tUser tResp : Nat) (execution_time : ℚ) :
    SessionState :=
  if api_key.isEmpty then st
  else if !dbConnected then st
  else
    let msgs := appendUserMessage st.messages user_input tUser
    match agent with
    | AgentOutcome.noAgent _ => { st with messages := msgs }
    | AgentOutcome.raised e =>
        { st with messages := msgs ++ [errorMessage e tResp] }
    | AgentOutcome.ok response =>
        let analytics1 : Analytics :=
          { total_queries := st.analytics.total_queries + 1,
            successful_queries := st.analytics.successful_queries + 1,
            total_response_time := st.analytics.total_response_time + execution_time }
        let sql_query := extract_sql_query response
        let dataframe_result : Option DataFrame :=
          match sql_query with
          | none => none
          | some _ =>
            match execute_sql_query ex with
            | (some df, _, none) => if df.rows.isEmpty then none else some df
            | _ => none
        let message_data : Message :=
          { role := Role.assistant, content := response, timestamp := tResp,
            execution_time := some execution_time, sql_query := sql_query,
            dataframe := dataframe_result }
        { messages := msgs ++ [message_data],
          query_history := historyAppendEvict st.query_history
            { query := user_input, response := response, timestamp := tResp,
              execution_time := execution_time, sql_query := sql_query },
          analytics := analytics1 }

/-- src/app.py:534-537, the "Clear Chat History" action:
`messages = messages[:1]`. -/
def clearChat (st : SessionState) : SessionState :=
  { st with messages := st.messages.take 1 }

/-- src/app.py:509-511, the sidebar success rate:
`successful_queries / max(total_queries, 1) * 100`. -/
def sidebar_success_rate (a : Analytics) : ℚ :=
  (a.successful_queries : ℚ) / ((max a.total_queries 1 : ℕ) : ℚ) * 100

/-- src/app.py:713-714, the footer success rate (computed only when
`total_queries > 0`): `(successful_queries / total_queries) * 100`. -/
def footer_success_rate (a : Analytics) : ℚ :=
  (a.successful_queries : ℚ) / (a.total_queries : ℚ) * 100

/-- The session states reachable from `init_session_state()` through the
state-changing interactions of the app: handling a user query and
clearing the chat history. -/
inductive Reachable : SessionState → Prop where
  | init : Reachable initialState
  | query {st : SessionState} (user_input api_key : String)
      (dbConnected : Bool) (agent : AgentOutcome) (ex : ExecOutcome)
      (tUser tResp : Nat) (execution_time : ℚ) :
      Reachable st →
      Reachable (process_user_query st user_input api_key dbConnected agent
        ex tUser tResp execution_time)
  | clear {st : SessionState} : Reachable st → Reachable (clearChat st)

/-! ## Concrete instances used by the witnesses -/

/-- A sample query-history entry. -/
def sampleEntryA : HistoryEntry :=
  { query := "q1", response := "r1", timestamp := 0, execution_time := 0,
    sql_query := none }

/-- A second, distinct sample query-history entry. -/
def sampleEntryB : HistoryEntry :=
  { query := "q2", response := "r2", timestamp := 1, execution_time := 1,
    sql_query := some "SELECT 1" }

/-- The state after one successfully answered query starting from the
initial session state. -/
def oneQueryState : SessionState :=
  process_user_query initialState "list the tables" "gsk_key" true
    (AgentOutcome.ok "The tables are Students and Courses.")
    (ExecOutcome.fail "no query") 1 2 3

/-- A row-count oracle that fails on the table named `corrupt`. -/
def wRowCount : String → Except String Nat := fun t =>
  if t = "corrupt" then Except.error "no such table" else Except.ok 15

/-- A column-listing oracle that fails on the table named `corrupt`. -/
def wGetColumns : String → Except String (List ColumnInfo) := fun t =>
  if t = "corrupt" then Except.error "no such table"
  else Except.ok [⟨"student_id", "INTEGER"⟩, ⟨"name", "TEXT"⟩]

/-! ## Helper lemmas -/

theorem lastIsSameUser_concat_newUser (msgs : List Message) (q : String)
    (t : Nat) : lastIsSameUser (msgs ++ [newUserMessage q t]) q = true := by
  simp [lastIsSameUser, List.getLast?_concat, newUserMessage]

theorem startsWithCI_self_append (p x : List Char) :
    startsWithCI p (p ++ x) = true := by
  induction p with
  | nil => rfl
  | cons c cs ih => simp [startsWithCI, ih]

theorem dropWhile_cons_head_false (p : Char → Bool) (l : List Char)
    (c : Char) (t : List Char) (h : l.dropWhile p = c :: t) : p c = false := by
  induction l with
  | nil => simp [List.dropWhile] at h
  | cons a l ih =>
    rw [List.dropWhile_cons] at h
    by_cases hpa : p a = true
    · exact ih (by simpa [hpa] using h)
    · simp [hpa] at h
      rcases h with ⟨hac, -⟩
      rw [← hac]
      simpa using hpa

theorem dropWhile_idem (p : Char → Bool) (l : List Char) :
    (l.dropWhile p).dropWhile p = l.dropWhile p := by
  cases hdw : l.dropWhile p with
  | nil => rfl
  | cons c t =>
    have hc := dropWhile_cons_head_false p l c t hdw
    simp [List.dropWhile_cons, hc]

theorem pyStripLeft_idem (l : List Char) :
    pyStripLeft (pyStripLeft l) = pyStripLeft l :=
  dropWhile_idem pySpace l

theorem pyStripRight_idem (l : List Char) :
    pyStripRight (pyStripRight l) = pyStripRight l := by
  unfold pyStripRight
  rw [List.reverse_reverse, dropWhile_idem]

theorem pyStripLeft_pyStripRight (l : List Char)
    (hl : pyStripLeft l = l) :
    pyStripLeft (pyStripRight l) = pyStripRight l := by
  cases l with
  | nil => rfl
  | cons c t =>
    have hc : pySpace c = false := by
      unfold pyStripLeft at hl
      rw [List.dropWhile_cons] at hl
      by_cases hpc : pySpace c = true
      · exfalso
        rw [if_pos hpc] at hl
        have hlen := congrArg List.length hl
        have hle : (t.dropWhile pySpace).length ≤ t.length :=
          (List.dropWhile_sublist pySpace).length_le
        simp at hlen
        omega
      · simpa using hpc
    unfold pyStripRight
    rw [List.reverse_cons, List.dropWhile_append]
    by_cases he : (t.reverse.dropWhile pySpace).isEmpty = true
    · simp only [he, if_pos]
      simp [pyStripLeft, List.dropWhile_cons, hc]
    · simp only [he, if_neg, Bool.false_eq_true, not_false_iff]
      rw [List.reverse_append]
      simp [pyStripLeft, List.dropWhile_cons, hc]

theorem pyStrip_idem (l : List Char) : pyStrip (pyStrip l) = pyStrip l := by
  unfold pyStrip
  rw [pyStripLeft_pyStripRight (pyStripLeft l) (pyStripLeft_idem l)]
  exact pyStripRight_idem _

theorem splitAtTriple_self (post : List Char) :
    splitAtTriple (tripleTick ++ post) = some ([], post) := by
  cases hEq : tripleTick ++ post with
  | nil =>
    exfalso
    have := congrArg List.length hEq
    simp [tripleTick] at this
  | cons c cs =>
    have hstart : startsWithCI tripleTick (c :: cs) = true := by
      rw [← hEq]; exact startsWithCI_self_append tripleTick post
    have hdrop : (c :: cs).drop 3 = post := by
      rw [← hEq]
      have h3 : tripleTick.length = 3 := rfl
      rw [← h3]
      exact List.drop_left tripleTick post
    simp [splitAtTriple, hstart, hdrop]

theorem splitAtTriple_found (mid post : List Char)
    (h : ∀ j, j < mid.length →
      startsWithCI tripleTick ((mid ++ (tripleTick ++ post)).drop j) = false) :
    splitAtTriple (mid ++ (tripleTick ++ post)) = some (mid, post) := by
  induction mid with
  | nil => simpa using splitAtTriple_self post
  | cons c cs ih =>
    have h0 : startsWithCI tripleTick (c :: (cs ++ (tripleTick ++ post))) = false := by
      have := h 0 (by simp)
      simpa using this
    have hih := ih (fun j hj => by
      have := h (j + 1) (by simpa using Nat.succ_lt_succ hj)
      simpa [List.drop_succ_cons] using this)
    simp only [List.cons_append]
    simp [splitAtTriple, h0, hih]

theorem fenceSqlMatch_cons_found (X mid rest2 : List Char)
    (hsplit : splitAtTriple X = some (mid, rest2)) :
    fenceSqlMatch (fenceTag ++ X) = some (pyStrip mid) := by
  cases hEq : fenceTag ++ X with
  | nil =>
    exfalso
    have := congrArg List.length hEq
    simp [fenceTag] at this
  | cons c cs =>
    have hstart : startsWithCI fenceTag (c :: cs) = true := by
      rw [← hEq]; exact startsWithCI_self_append fenceTag X
    have hdrop : (c :: cs).drop 6 = X := by
      rw [← hEq]
      have h6 : fenceTag.length = 6 := rfl
      rw [← h6]
      exact List.drop_left fenceTag X
    simp [fenceSqlMatch, hstart, hdrop, hsplit]

theorem fenceSqlMatch_append (pre rest : List Char)
    (h : ∀ i, i < pre.length →
      startsWithCI fenceTag ((pre ++ rest).drop i) = false) :
    fenceSqlMatch (pre ++ rest) = fenceSqlMatch rest := by
  induction pre with
  | nil => rfl
  | cons c cs ih =>
    have h0 : startsWithCI fenceTag (c :: (cs ++ rest)) = false := by
      have := h 0 (by simp)
      simpa using this
    have hih := ih (fun i hi => by
      have := h (i + 1) (by simpa using Nat.succ_lt_succ hi)
      simpa [List.drop_succ_cons] using this)
    simp only [List.cons_append]
    simp [fenceSqlMatch, h0, hih]

theorem reachable_successful_eq_total {st : SessionState}
    (h : Reachable st) :
    st.analytics.successful_queries = st.analytics.total_queries := by
  induction h with
  | init => rfl
  | query user_input api_key dbConnected agent ex tUser tResp et hst ih =>
    cases hk : api_key.isEmpty <;> cases dbConnected <;> cases agent <;>
      simp [process_user_query, hk, ih]
  | clear hst ih => simpa [clearChat] using ih

theorem dictInsert_fresh (d : List (String × TableInfo)) (k : String)
    (v : TableInfo) (h : ∀ p ∈ d, p.1 ≠ k) :
    dictInsert d k v = d ++ [(k, v)] := by
  have hany : d.any (fun p => p.1 == k) = false := by
    simp only [List.any_eq_false]
    intro p hp
    simpa using h p hp
  simp [dictInsert, hany]

theorem gdi_foldl (rowCount : String → Except String Nat)
    (getColumns : String → Except String (List ColumnInfo)) :
    ∀ (ts : List String) (acc : List (String × TableInfo)) (n : Nat),
      (∀ t ∈ ts, ∀ p ∈ acc, p.1 ≠ t) → ts.Nodup →
      ts.foldl (gdiStep rowCount getColumns) (acc, n) =
        (acc ++ ts.map (fun t => (t, tableEntry rowCount getColumns t)),
         n + (ts.map (tableRowContribution rowCount)).sum) := by
  intro ts
  induction ts with
  | nil => intro acc n _ _; simp
  | cons t ts ih =>
    intro acc n hfresh hnd
    have hstep : gdiStep rowCount getColumns (acc, n) t =
        (acc ++ [(t, tableEntry rowCount getColumns t)],
         n + tableRowContribution rowCount t) := by
      have hins : ∀ v, dictInsert acc t v = acc ++ [(t, v)] := fun v =>
        dictInsert_fresh acc t v (fun p hp => hfresh t (by simp) p hp)
      cases hrc : rowCount t with
      | error e => simp [gdiStep, tableEntry, tableRowContribution, hrc, hins]
      | ok rc =>
        cases hgc : getColumns t with
        | error e =>
          simp [gdiStep, tableEntry, tableRowContribution, hrc, hgc, hins]
        | ok cols =>
          simp [gdiStep, tableEntry, tableRowContribution, hrc, hgc, hins]
    have hfresh2 : ∀ u ∈ ts,
        ∀ p ∈ acc ++ [(t, tableEntry rowCount getColumns t)], p.1 ≠ u := by
      intro u hu p hp
      rcases List.mem_append.mp hp with hpacc | hpt
      · exact hfresh u (by simp [hu]) p hpacc
      · have hpt' : p = (t, tableEntry rowCount getColumns t) := by
          simpa using hpt
        subst hpt'
        have hnin : t ∉ ts := (List.nodup_cons.mp hnd).1
        intro hcontra
        have htu : t = u := hcontra
        exact hnin (htu ▸ hu)
    have ihr := ih (acc ++ [(t, tableEntry rowCount getColumns t)])
      (n + tableRowContribution rowCount t) hfresh2 (List.nodup_cons.mp hnd).2
    calc (t :: ts).foldl (gdiStep rowCount getColumns) (acc, n)
        = ts.foldl (gdiStep rowCount getColumns)
            (acc ++ [(t, tableEntry rowCount getColumns t)],
             n + tableRowContribution rowCount t) := by rw [List.foldl_cons, hstep]
      _ = (acc ++ (t :: ts).map (fun u => (u, tableEntry rowCount getColumns u)),
           n + ((t :: ts).map (tableRowContribution rowCount)).sum) := by
          rw [ihr]; simp [List.append_assoc]; omega

/-! ## Claim theorems -/

/-- C1: for every response text in which the explicit-SQL-fence rule
matches (capturing `m`) while a bare `SELECT` statement also occurs
elsewhere in the text (the bare-statement rule matches, capturing `b`),
`extract_sql_query` returns the post-processed fenced content `m`: the
ordered rule list is evaluated with strict first-match-wins priority and
the explicit-SQL-fence pattern is tried first (src/app.py:224-235). -/
theorem extract_fence_priority (cs m b : List Char)
    (hf : fenceSqlMatch cs = some m)
    (hb : bareMatch ("SELECT".data) cs = some b) :
    extract_sql_query (String.mk cs) = some (String.mk (finishMatch m)) := by
  have h : extract_sql_query (String.mk cs) =
      (extractChars cs).map (fun x => String.mk (finishMatch x)) := rfl
  have hkeep : bareMatch ("SELECT".data) cs = some b := hb
  rw [h]
  simp [extractChars, hf]

/-- C1 witness: a response with a bare `SELECT` statement occurring before
a fenced SQL block still yields the fenced block's content. -/
theorem extract_fence_priority_witness :
    extract_sql_query "See SELECT b FROM u; or ```sql\nSELECT a FROM t;\n``` instead" =
      some "SELECT a FROM t" :=
  (extract_fence_priority
    ("See SELECT b FROM u; or ```sql\nSELECT a FROM t;\n``` instead".data)
    ("SELECT a FROM t;".data) ("SELECT b FROM u;".data)
    (by decide) (by decide)).trans (by decide)

/-- C2: for every response text of the form
`pre ++ "```sql" ++ mid ++ "```" ++ post` in which the shown `` ```sql ``
marker is the first of the text and the shown closing `` ``` `` is the
first fence after it, `extract_sql_query` returns exactly the interior
`mid` with surrounding whitespace trimmed and a single trailing semicolon
(if present) removed — that is, `finishMatch mid`
(src/app.py:225,236-239). -/
theorem extract_fenced_sql_content (pre mid post : List Char)
    (hpre : ∀ i, i < pre.length →
      startsWithCI fenceTag
        ((pre ++ (fenceTag ++ (mid ++ (tripleTick ++ post)))).drop i) = false)
    (hmid : ∀ j, j < mid.length →
      startsWithCI tripleTick ((mid ++ (tripleTick ++ post)).drop j) = false) :
    extract_sql_query
        (String.mk (pre ++ (fenceTag ++ (mid ++ (tripleTick ++ post))))) =
      some (String.mk (finishMatch mid)) := by
  have hsplit := splitAtTriple_found mid post hmid
  have hfound := fenceSqlMatch_cons_found (mid ++ (tripleTick ++ post)) mid
    post hsplit
  have hscan := fenceSqlMatch_append pre
    (fenceTag ++ (mid ++ (tripleTick ++ post))) hpre
  have hfence : fenceSqlMatch (pre ++ (fenceTag ++ (mid ++ (tripleTick ++ post)))) =
      some (pyStrip mid) := hscan.trans hfound
  have h : extract_sql_query
      (String.mk (pre ++ (fenceTag ++ (mid ++ (tripleTick ++ post))))) =
      (extractChars (pre ++ (fenceTag ++ (mid ++ (tripleTick ++ post))))).map
        (fun x => String.mk (finishMatch x)) := rfl
  rw [h]
  have hfin : finishMatch (pyStrip mid) = finishMatch mid := by
    simp only [finishMatch, pyStrip_idem]
  simp [extractChars, hfence, hfin]

/-- C2 witness: a concrete response with prose around a fenced SQL block
yields the trimmed interior with its trailing semicolon removed. -/
theorem extract_fenced_sql_content_witness :
    extract_sql_query
        (String.mk ("Answer: ".data ++
          (fenceTag ++ ("\nSELECT name FROM Students;\n".data ++
            (tripleTick ++ " done".data))))) =
      some "SELECT name FROM Students" :=
  (extract_fenced_sql_content ("Answer: ".data)
    ("\nSELECT name FROM Students;\n".data) (" done".data)
    (by decide) (by decide)).trans (by decide)

/-- C3: for every response text on which none of the six pattern rules
matches (no fenced SQL block, no generic code block starting with
`SELECT`, and no bare `SELECT`/`INSERT`/`UPDATE`/`DELETE` statement),
`extract_sql_query` returns `none`.  The function is a total Lean
function, so it never raises: a non-match is an absence of a result, not
an error (src/app.py:241). -/
theorem extract_no_match_none (cs : List Char)
    (h1 : fenceSqlMatch cs = none) (h2 : fenceSelectMatch cs = none)
    (h3 : bareMatch ("SELECT".data) cs = none)
    (h4 : bareMatch ("INSERT".data) cs = none)
    (h5 : bareMatch ("UPDATE".data) cs = none)
    (h6 : bareMatch ("DELETE".data) cs = none) :
    extract_sql_query (String.mk cs) = none := by
  have h : extract_sql_query (String.mk cs) =
      (extractChars cs).map (fun x => String.mk (finishMatch x)) := rfl
  rw [h]
  simp [extractChars, h1, h2, h3, h4, h5, h6]

/-- C3 witness: a conversational response with no recognizable statement
extracts to `none`. -/
theorem extract_no_match_none_witness :
    extract_sql_query "Hello! The database has three tables." = none :=
  extract_no_match_none ("Hello! The database has three tables.".data)
    (by decide) (by decide) (by decide) (by decide) (by decide) (by decide)

/-- C4: appending a 101st entry to a 100-entry query history yields a
history of exactly 50 entries whose last element is the newly appended
entry, while an append that does not push the length past 100 (history of
length at most 99) leaves the history untouched apart from the appended
entry — the cap check runs only at the moment of insertion. -/
theorem history_eviction (h : List HistoryEntry) (e : HistoryEntry) :
    (h.length = 100 →
      (historyAppendEvict h e).length = 50 ∧
      (historyAppendEvict h e).getLast? = some e) ∧
    (h.length ≤ 99 → historyAppendEvict h e = h ++ [e]) := by
  constructor
  · intro h100
    have hlen : (h ++ [e]).length = 101 := by simp [h100]
    have hdrop : (h ++ [e]).drop 51 = h.drop 51 ++ [e] :=
      List.drop_append_of_le_length (by omega)
    constructor
    · simp [historyAppendEvict, hlen]
    · simp only [historyAppendEvict, hlen]
      norm_num
      rw [hdrop]
      exact List.getLast?_concat _
  · intro hle
    have hlen : (h ++ [e]).length = h.length + 1 := by simp
    simp only [historyAppendEvict, hlen]
    rw [if_neg (by omega)]

/-- C4 witness: a concrete 100-entry history evicts to 50 entries ending
in the new entry, and a 1-entry history is simply appended to. -/
theorem history_eviction_witness :
    (historyAppendEvict (List.replicate 100 sampleEntryA) sampleEntryB).length = 50 ∧
    (historyAppendEvict (List.replicate 100 sampleEntryA) sampleEntryB).getLast? =
      some sampleEntryB ∧
    historyAppendEvict [sampleEntryA] sampleEntryB = [sampleEntryA] ++ [sampleEntryB] := by
  have h1 := (history_eviction (List.replicate 100 sampleEntryA) sampleEntryB).1
    (by simp)
  have h2 := (history_eviction [sampleEntryA] sampleEntryB).2 (by simp)
  exact ⟨h1.1, h1.2, h2⟩

/-- C5: when the message log does not already end with the identical user
message, submitting the same literal question twice in direct succession
(two consecutive runs of the guarded append of src/app.py:290-296 with no
intervening change to the log) appends exactly one user message: the
duplicate-submission guard suppresses the second append. -/
theorem duplicate_submission_guard (msgs : List Message) (q : String)
    (t1 t2 : Nat) (hfresh : lastIsSameUser msgs q = false) :
    appendUserMessage (appendUserMessage msgs q t1) q t2 =
      msgs ++ [newUserMessage q t1] ∧
    (appendUserMessage (appendUserMessage msgs q t1) q t2).length =
      msgs.length + 1 := by
  have h1 : appendUserMessage msgs q t1 = msgs ++ [newUserMessage q t1] := by
    simp [appendUserMessage, hfresh]
  have h2 : appendUserMessage (appendUserMessage msgs q t1) q t2 =
      msgs ++ [newUserMessage q t1] := by
    rw [h1]
    simp [appendUserMessage, lastIsSameUser_concat_newUser]
  exact ⟨h2, by rw [h2]; simp⟩

/-- C5 witness: submitting the same question twice on the fresh message
log (which ends with the assistant welcome message) appends exactly one
user message. -/
theorem duplicate_submission_guard_witness :
    appendUserMessage
        (appendUserMessage initialState.messages "Show all Students data" 1)
        "Show all Students data" 2 =
      initialState.messages ++ [newUserMessage "Show all Students data" 1] ∧
    (appendUserMessage
        (appendUserMessage initialState.messages "Show all Students data" 1)
        "Show all Students data" 2).length =
      initialState.messages.length + 1 :=
  duplicate_submission_guard initialState.messages "Show all Students data" 1 2
    (by decide)

/-- C6 counterexample: an interaction that passes the credential and
connection checks (non-empty API key, connected database) but whose agent
construction fails does NOT record the attempt: `total_queries` stays 0,
refuting the claim that only a missing credential or missing connection
short-circuits before the ledger update. -/
theorem process_agent_failure_skips_ledger :
    ("gsk_key" : String).isEmpty = false ∧
    (process_user_query initialState "list all students" "gsk_key" true
        (AgentOutcome.noAgent "construction failed") (ExecOutcome.fail "") 0 1
        1).analytics.total_queries = 0 := by
  constructor
  · rfl
  · rfl

/-- C6 amended: the interaction handler increments `total_queries` exactly
when the credential check, the connection check AND the agent call all
succeed; a missing credential, a missing connection, an agent-construction
error and an exception escaping `agent.run` all short-circuit before any
ledger update (only extraction/re-execution failures after a successful
agent call still record the attempt). -/
theorem process_ledger_update_iff_agent_ok (st : SessionState)
    (user_input api_key : String) (dbConnected : Bool)
    (agent : AgentOutcome) (ex : ExecOutcome) (tUser tResp : Nat)
    (execution_time : ℚ) :
    (process_user_query st user_input api_key dbConnected agent ex tUser
        tResp execution_time).analytics.total_queries =
      st.analytics.total_queries +
        (if (!api_key.isEmpty && dbConnected && agent.isOk) = true then 1
         else 0) := by
  cases hk : api_key.isEmpty <;> cases dbConnected <;> cases agent <;>
    simp [process_user_query, AgentOutcome.isOk, hk]

/-- C7: on every reachable session state with zero recorded queries the
sidebar success-rate computation (src/app.py:509-511) yields 0, and its
denominator `max(total_queries, 1)` is never zero, so the computation
never divides by zero. -/
theorem sidebar_success_rate_zero_guard :
    (∀ st : SessionState, Reachable st → st.analytics.total_queries = 0 →
      sidebar_success_rate st.analytics = 0) ∧
    (∀ a : Analytics, ((max a.total_queries 1 : ℕ) : ℚ) ≠ 0) := by
  constructor
  · intro st h h0
    have hs := reachable_successful_eq_total h
    rw [h0] at hs
    simp [sidebar_success_rate, hs]
  · intro a
    exact Nat.cast_ne_zero.mpr (by omega)

/-- C7 witness: the initial session state is reachable, has zero total
queries, and its sidebar success rate evaluates to 0 with a non-zero
denominator. -/
theorem sidebar_success_rate_zero_guard_witness :
    sidebar_success_rate initialState.analytics = 0 ∧
    ((max initialState.analytics.total_queries 1 : ℕ) : ℚ) ≠ 0 :=
  ⟨sidebar_success_rate_zero_guard.1 initialState Reachable.init rfl,
   sidebar_success_rate_zero_guard.2 initialState.analytics⟩

/-- C8: on every reachable session state, `successful_queries` equals
`total_queries` (both counters are incremented together, unconditionally,
at src/app.py:329-331, and no code path records an attempt as
unsuccessful), so the footer success rate (src/app.py:713-714) is 100%
whenever at least one query has been recorded. -/
theorem analytics_always_successful {st : SessionState}
    (h : Reachable st) :
    st.analytics.successful_queries = st.analytics.total_queries ∧
    (0 < st.analytics.total_queries → footer_success_rate st.analytics = 100) := by
  have hs := reachable_successful_eq_total h
  refine ⟨hs, fun hpos => ?_⟩
  have hne : (st.analytics.total_queries : ℚ) ≠ 0 :=
    Nat.cast_ne_zero.mpr (by omega)
  rw [footer_success_rate, hs, div_self hne, one_mul]

/-- C8 witness: after one handled query the counters are equal and the
footer success rate is 100%. -/
theorem analytics_always_successful_witness :
    oneQueryState.analytics.successful_queries =
      oneQueryState.analytics.total_queries ∧
    footer_success_rate oneQueryState.analytics = 100 := by
  have h := analytics_always_successful
    (Reachable.query "list the tables" "gsk_key" true
      (AgentOutcome.ok "The tables are Students and Courses.")
      (ExecOutcome.fail "no query") 1 2 3 Reachable.init)
  exact ⟨h.1, h.2 (by decide)⟩

/-- C9: schema inspection isolates per-table failures.  When table
enumeration succeeds, every table whose row count or column listing fails
contributes the `{'columns': [], 'row_count': 0}` entry, every other table
is reported with its real columns and row count, and the overall error is
`None`; when enumeration itself fails, the call returns an empty snapshot,
a total of 0, and the (non-null) exception message. -/
theorem schema_inspection_isolation (rowCount : String → Except String Nat)
    (getColumns : String → Except String (List ColumnInfo)) :
    (∀ e, get_database_info (Except.error e) rowCount getColumns =
      ([], 0, some e)) ∧
    (∀ ts : List String, ts.Nodup →
      get_database_info (Except.ok ts) rowCount getColumns =
        (ts.map (fun t => (t, tableEntry rowCount getColumns t)),
         (ts.map (tableRowContribution rowCount)).sum, none)) := by
  constructor
  · intro e; rfl
  · intro ts hnd
    have h := gdi_foldl rowCount getColumns ts [] 0 (by simp) hnd
    simp [get_database_info, h]

/-- C9 witness: with a healthy `Students` table and a `corrupt` table
whose introspection fails, the snapshot reports `Students` normally,
reports `corrupt` with zero rows and no columns, and returns no error;
a failing enumeration returns the empty snapshot with the error. -/
theorem schema_inspection_isolation_witness :
    get_database_info (Except.ok ["Students", "corrupt"]) wRowCount wGetColumns =
      ([("Students", ⟨[⟨"student_id", "INTEGER"⟩, ⟨"name", "TEXT"⟩], 15⟩),
        ("corrupt", ⟨[], 0⟩)], 15, none) ∧
    get_database_info (Except.error "cannot enumerate") wRowCount wGetColumns =
      ([], 0, some "cannot enumerate") := by
  constructor
  · have h := (schema_inspection_isolation wRowCount wGetColumns).2
      ["Students", "corrupt"] (by decide)
    exact h.trans (by decide)
  · exact (schema_inspection_isolation wRowCount wGetColumns).1 "cannot enumerate"

/-- C10 counterexample: when the executed statement fails with an
exception whose message is the empty string, `execute_sql_query` returns
the empty string as its error, refuting the claim that the error string is
always non-empty (error presence — `some` — is guaranteed; non-emptiness
of the carried message is not). -/
theorem execute_sql_query_error_can_be_empty :
    (execute_sql_query (ExecOutcome.fail "")).2.2 = some "" ∧
    ("" : String).isEmpty = true := ⟨rfl, rfl⟩

/-- C10 amended: for every failing execution, `execute_sql_query` returns
no result table, an elapsed time of exactly 0, and the exception's message
as a present (`some`, though possibly empty) error value, never
propagating the exception; every successful execution returns the
dataframe, the measured time, and a `None` error. -/
theorem execute_sql_query_contract :
    (∀ e, execute_sql_query (ExecOutcome.fail e) = (none, 0, some e)) ∧
    (∀ df t, execute_sql_query (ExecOutcome.ok df t) = (some df, t, none)) :=
  ⟨fun _ => rfl, fun _ _ => rfl⟩
